import Mathlib

/-!
Verification development for the YTS qBittorrent search plugin (`yts.py`).

The embedding models:
* the JSON payloads returned by the remote API (`JVal`),
* the four dataclasses `yts_torrent`, `yts_movie`, `yts_data`, `yts_response`
  together with their `__post_init__` conversions and the top-level field
  filter `convert_response` (decoding failures become `Except.error`,
  mirroring the Python exceptions that construction raises),
* the tag-extraction portion of `yts.search` (the five regular-expression
  passes, hand-compiled to explicit scanners with Python's leftmost-match
  `re.search` and all-occurrences `re.sub` semantics),
* the pagination/filter/emission loop of `yts.search`, parameterised by a
  fetch oracle `String → JVal` standing for `retrieve_url` composed with
  `json.loads`.

Machine integers do not overflow here (Python ints are unbounded), so `Int`
is used directly; Python's floor division `//` is `Int.fdiv` and its
`ZeroDivisionError` is modelled explicitly.
-/

namespace YTSPlugin

/-- JSON values as produced by `json.loads`. Objects keep field order;
the Python dicts involved never carry duplicate keys. -/
inductive JVal where
  | jnull
  | jnum (n : Int)
  | jstr (s : String)
  | jarr (xs : List JVal)
  | jobj (fields : List (String × JVal))

/-- Python exceptions that the translated code can raise. -/
inductive PyErr where
  | typeError
  | zeroDivisionError
  | attributeError
deriving DecidableEq

/-- Lookup in an association-list model of a Python dict. -/
def olookup (o : List (String × JVal)) (k : String) : Option JVal :=
  match o with
  | [] => none
  | (k', v) :: rest => if k' = k then some v else olookup rest k

/-- `yts_torrent` dataclass: fields are untyped in Python (no coercion at
construction), so each holds a raw `JVal`. -/
structure yts_torrent where
  url : JVal
  hash : JVal
  quality : JVal
  type : JVal
  is_repack : JVal
  video_codec : JVal
  bit_depth : JVal
  audio_channels : JVal
  seeds : JVal
  peers : JVal
  size : JVal
  size_bytes : JVal
  date_uploaded : JVal
  date_uploaded_unix : JVal

/-- `yts_movie` dataclass; `__post_init__` converts `torrents` to a list of
`yts_torrent`, every other field is stored raw. -/
structure yts_movie where
  id : JVal
  url : JVal
  imdb_code : JVal
  title : JVal
  title_english : JVal
  title_long : JVal
  slug : JVal
  year : JVal
  rating : JVal
  runtime : JVal
  genres : JVal
  summary : JVal
  description_full : JVal
  synopsis : JVal
  yt_trailer_code : JVal
  language : JVal
  mpa_rating : JVal
  background_image : JVal
  background_image_original : JVal
  small_cover_image : JVal
  medium_cover_image : JVal
  large_cover_image : JVal
  state : JVal
  torrents : List yts_torrent
  date_uploaded : JVal
  date_uploaded_unix : JVal

/-- `yts_data` dataclass. `movies` defaults to `None`; `__post_init__`
converts a truthy value into a list of `yts_movie`. `none` models a missing
or falsy non-iterable value (`None`/`0`), `some []` an empty iterable. -/
structure yts_data where
  movie_count : JVal
  limit : JVal
  page_number : JVal
  movies : Option (List yts_movie)

/-- `yts_response` dataclass (after its `__post_init__` has replaced `data`
by a `yts_data`). -/
structure yts_response where
  status : JVal
  status_message : JVal
  data : yts_data

def torrentFieldNames : List String :=
  ["url", "hash", "quality", "type", "is_repack", "video_codec", "bit_depth",
   "audio_channels", "seeds", "peers", "size", "size_bytes", "date_uploaded",
   "date_uploaded_unix"]

/-- `yts_torrent(**t)`: an unexpected or missing keyword raises `TypeError`. -/
def decode_torrent (o : List (String × JVal)) : Except PyErr yts_torrent :=
  if (o.all fun kv => torrentFieldNames.contains kv.1) &&
     (torrentFieldNames.all fun n => (olookup o n).isSome) then
    .ok
      { url := (olookup o "url").getD .jnull
        hash := (olookup o "hash").getD .jnull
        quality := (olookup o "quality").getD .jnull
        type := (olookup o "type").getD .jnull
        is_repack := (olookup o "is_repack").getD .jnull
        video_codec := (olookup o "video_codec").getD .jnull
        bit_depth := (olookup o "bit_depth").getD .jnull
        audio_channels := (olookup o "audio_channels").getD .jnull
        seeds := (olookup o "seeds").getD .jnull
        peers := (olookup o "peers").getD .jnull
        size := (olookup o "size").getD .jnull
        size_bytes := (olookup o "size_bytes").getD .jnull
        date_uploaded := (olookup o "date_uploaded").getD .jnull
        date_uploaded_unix := (olookup o "date_uploaded_unix").getD .jnull }
  else .error .typeError

/-- `list(yts_torrent(**torrent) for torrent in ...)` in
`yts_movie.__post_init__`: each element must be a dict. -/
def decode_torrents : List JVal → Except PyErr (List yts_torrent)
  | [] => .ok []
  | .jobj t :: rest =>
    match decode_torrent t with
    | .ok a =>
      match decode_torrents rest with
      | .ok b => .ok (a :: b)
      | .error e => .error e
    | .error e => .error e
  | _ :: _ => .error .typeError

def movieFieldNames : List String :=
  ["id", "url", "imdb_code", "title", "title_english", "title_long", "slug",
   "year", "rating", "runtime", "genres", "summary", "description_full",
   "synopsis", "yt_trailer_code", "language", "mpa_rating",
   "background_image", "background_image_original", "small_cover_image",
   "medium_cover_image", "large_cover_image", "state", "torrents",
   "date_uploaded", "date_uploaded_unix"]

/-- `yts_movie(**m)` followed by its `__post_init__`. No field filtering
happens here: an extra key raises `TypeError`. The field values are
fetched by mapping the lookup over `movieFieldNames` (whose order is the
declaration order); the wildcard arm is unreachable since that list has
exactly 26 entries. -/
def decode_movie (o : List (String × JVal)) : Except PyErr yts_movie :=
  if (o.all fun kv => movieFieldNames.contains kv.1) &&
     (movieFieldNames.all fun n => (olookup o n).isSome) then
    match olookup o "torrents" with
    | some (.jarr ts) =>
      match decode_torrents ts with
      | .ok tl =>
        match movieFieldNames.map (fun n => (olookup o n).getD .jnull) with
        | [v_id, v_url, v_imdb_code, v_title, v_title_english, v_title_long,
           v_slug, v_year, v_rating, v_runtime, v_genres, v_summary,
           v_description_full, v_synopsis, v_yt_trailer_code, v_language,
           v_mpa_rating, v_background_image, v_background_image_original,
           v_small_cover_image, v_medium_cover_image, v_large_cover_image,
           v_state, _, v_date_uploaded, v_date_uploaded_unix] =>
          .ok (yts_movie.mk v_id v_url v_imdb_code v_title v_title_english
            v_title_long v_slug v_year v_rating v_runtime v_genres v_summary
            v_description_full v_synopsis v_yt_trailer_code v_language
            v_mpa_rating v_background_image v_background_image_original
            v_small_cover_image v_medium_cover_image v_large_cover_image
            v_state tl v_date_uploaded v_date_uploaded_unix)
        | _ => .error .typeError
      | .error e => .error e
    | _ => .error .typeError
  else .error .typeError

def decode_movies_list : List JVal → Except PyErr (List yts_movie)
  | [] => .ok []
  | .jobj m :: rest =>
    match decode_movie m with
    | .ok a =>
      match decode_movies_list rest with
      | .ok b => .ok (a :: b)
      | .error e => .error e
    | .error e => .error e
  | _ :: _ => .error .typeError

/-- Python truthiness of a JSON value. -/
def truthy (v : JVal) : Bool :=
  match v with
  | .jnull => false
  | .jnum n => n != 0
  | .jstr s => !(s == "")
  | .jarr xs => !xs.isEmpty
  | .jobj fs => !fs.isEmpty

/-- `yts_data.__post_init__` handling of `movies`. A truthy value is
iterated and each element unpacked into `yts_movie` (non-dicts and
non-iterables raise `TypeError`); falsy values are left alone. A falsy
left-alone value that iterates to nothing downstream (`[]`, `""`, an empty
dict) is `some []`; `None` and `0`, which raise `TypeError` if iterated,
are `none`. -/
def decode_movies_field (v : JVal) : Except PyErr (Option (List yts_movie)) :=
  if truthy v then
    match v with
    | .jarr ms =>
      match decode_movies_list ms with
      | .ok l => .ok (some l)
      | .error e => .error e
    | _ => .error .typeError
  else
    match v with
    | .jarr _ => .ok (some [])
    | .jstr _ => .ok (some [])
    | .jobj _ => .ok (some [])
    | _ => .ok none

def dataFieldNames : List String :=
  ["movie_count", "limit", "page_number", "movies"]

def requiredDataFields : List String :=
  ["movie_count", "limit", "page_number"]

/-- `yts_data(**d)` followed by its `__post_init__`. No field filtering:
an extra key raises `TypeError`; `movies` may be absent (defaults `None`). -/
def decode_data (o : List (String × JVal)) : Except PyErr yts_data :=
  if (o.all fun kv => dataFieldNames.contains kv.1) &&
     (requiredDataFields.all fun n => (olookup o n).isSome) then
    match decode_movies_field ((olookup o "movies").getD .jnull) with
    | .ok mv =>
      .ok
        { movie_count := (olookup o "movie_count").getD .jnull
          limit := (olookup o "limit").getD .jnull
          page_number := (olookup o "page_number").getD .jnull
          movies := mv }
    | .error e => .error e
  else .error .typeError

def responseFieldNames : List String := ["status", "status_message", "data"]

/-- `yts.convert_response`: keeps only the declared top-level field names
(the comprehension over `dataclasses.fields(yts_response)`), then builds
`yts_response(**filtered)`; its `__post_init__` unpacks `data` into
`yts_data`, which must therefore be a dict. -/
def convert_response (api_response : List (String × JVal)) :
    Except PyErr yts_response :=
  let filtered := api_response.filter fun kv => responseFieldNames.contains kv.1
  match olookup filtered "status", olookup filtered "status_message",
        olookup filtered "data" with
  | some s, some m, some d =>
    match d with
    | .jobj dobj =>
      match decode_data dobj with
      | .ok dd => .ok { status := s, status_message := m, data := dd }
      | .error e => .error e
    | _ => .error .typeError
  | _, _, _ => .error .typeError

/-- `convert_response(json.loads(...))`: `api_response.items()` requires a
dict (otherwise `AttributeError`). -/
def convert_responseJ (v : JVal) : Except PyErr yts_response :=
  match v with
  | .jobj o => convert_response o
  | _ => .error .attributeError

/-! ### The tag-extraction micro-grammar of `yts.search`

Each Python regex is hand-compiled to a scanner over `List Char`.
A `Matcher` tries to match at the start of the input and yields the
consumed length and the captured group. `reFind` is `re.search`
(leftmost match), `reSubAll` is `re.sub(pat, "", s)` (removes every
non-overlapping leftmost match; none of the patterns can match the
empty string). -/

/-- A compiled regex: match at the head, return consumed length and the
relevant capture. -/
abbrev Matcher := List Char → Option (Nat × String)

/-- Match a literal; on success return the remaining input. -/
def litM : List Char → List Char → Option (List Char)
  | [], s => some s
  | _ :: _, [] => none
  | l :: ls, c :: cs => if c = l then litM ls cs else none

/-- The alternatives of `(?:2160|1440|1080|720|480|240)p|3D`, in the
source's alternation order. -/
def qualityAlts : List String :=
  ["2160p", "1440p", "1080p", "720p", "480p", "240p", "3D"]

/-- Try literal alternatives in order, returning length and matched text. -/
def tryAlts : List String → List Char → Option (Nat × String)
  | [], _ => none
  | a :: rest, s =>
    match litM a.data s with
    | some _ => some (a.length, a)
    | none => tryAlts rest s

/-- `(?:quality=)?((?:2160|1440|1080|720|480|240)p|3D)` at one position:
the optional prefix is tried first; on failure of its continuation the
engine retries without it. -/
def qualityM (s : List Char) : Option (Nat × String) :=
  match litM "quality=".data s with
  | some r =>
    match tryAlts qualityAlts r with
    | some (n, cap) => some (8 + n, cap)
    | none => tryAlts qualityAlts s
  | none => tryAlts qualityAlts s

/-- `(?:x|h)(264|265)` at one position; capture is the digit group. -/
def codecInner (s : List Char) : Option (Nat × String) :=
  match s with
  | c :: cs =>
    if c = 'x' ∨ c = 'h' then
      match litM "264".data cs with
      | some _ => some (4, "264")
      | none =>
        match litM "265".data cs with
        | some _ => some (4, "265")
        | none => none
    else none
  | [] => none

/-- `\.?(?:x|h)(264|265)` at one position (optional leading dot, with
regex backtracking to the dot-less attempt). -/
def codecM (s : List Char) : Option (Nat × String) :=
  match s with
  | [] => codecInner []
  | c :: cs =>
    if c = '.' then
      match codecInner cs with
      | some (n, cap) => some (n + 1, cap)
      | none => codecInner s
    else codecInner s

/-- `rating=(\d)` at one position; Python `\d` restricted to ASCII digits
(the only digits these queries contain). -/
def ratingBase (s : List Char) : Option (Nat × String) :=
  match litM "rating=".data s with
  | some (d :: _) => if d.isDigit then some (8, String.singleton d) else none
  | some [] => none
  | none => none

/-- Second and third backtracking attempts of the rating pattern:
`min_` + `rating=\d`, then bare `rating=\d`. -/
def ratingTail (s : List Char) : Option (Nat × String) :=
  match litM "min_".data s with
  | some r =>
    match ratingBase r with
    | some (n, cap) => some (4 + n, cap)
    | none => ratingBase s
  | none => ratingBase s

/-- `(?:min(?:imum)?_)?rating=(\d)` at one position, in the engine's
backtracking order: `minimum_`, then `min_`, then no prefix. -/
def ratingM (s : List Char) : Option (Nat × String) :=
  match litM "minimum_".data s with
  | some r =>
    match ratingBase r with
    | some (n, cap) => some (8 + n, cap)
    | none => ratingTail s
  | none => ratingTail s

/-- Python `\w` restricted to ASCII (all characters these queries use). -/
def isWordChar (c : Char) : Bool := c.isAlphanum || c = '_'

/-- `genre=(\w+)` at one position; `\w+` is greedy with nothing after it. -/
def genreM (s : List Char) : Option (Nat × String) :=
  match litM "genre=".data s with
  | some r =>
    let wcs := r.takeWhile isWordChar
    if wcs.isEmpty then none else some (6 + wcs.length, String.mk wcs)
  | none => none

/-- `&page=\d+` at one position. -/
def pageM (s : List Char) : Option (Nat × String) :=
  match litM "&page=".data s with
  | some r =>
    let ds := r.takeWhile Char.isDigit
    if ds.isEmpty then none else some (6 + ds.length, String.mk ds)
  | none => none

/-- `re.search`: first position (scanning left to right) where the matcher
succeeds; returns the capture. -/
def reFind (M : Matcher) : List Char → Option String
  | [] => (M []).map fun x => x.2
  | c :: cs =>
    match M (c :: cs) with
    | some (_, cap) => some cap
    | none => reFind M cs

/-- Fueled worker for `reSubAll`; fuel is the input length, which bounds
the number of steps since every match consumes at least one character. -/
def reSubGo (M : Matcher) : Nat → List Char → List Char
  | _, [] => []
  | 0, s => s
  | fuel + 1, c :: cs =>
    match M (c :: cs) with
    | some (n, _) =>
      if n = 0 then c :: reSubGo M fuel cs
      else reSubGo M fuel (List.drop (n - 1) cs)
    | none => c :: reSubGo M fuel cs

/-- `re.sub(pat, "", s)`: delete every non-overlapping leftmost match. -/
def reSubAll (M : Matcher) (s : List Char) : List Char :=
  reSubGo M s.length s

def isSpaceCh (c : Char) : Bool := c.isWhitespace

/-- Left part of Python `str.strip()`. -/
def lstripL (s : List Char) : List Char := s.dropWhile isSpaceCh

/-- Right part of Python `str.strip()`. -/
def rstripL (s : List Char) : List Char :=
  (s.reverse.dropWhile isSpaceCh).reverse

/-- Python `str.strip()`. -/
def pyStrip (s : List Char) : List Char := rstripL (lstripL s)

/-- A value stored in `search_params`. `strSet` models the Python set
literal `{min_rating}` that line 144 of the source assigns (a one-element
set of the digit string), as opposed to the plain strings every other
assignment stores. -/
inductive ParamValue where
  | str (s : String)
  | strSet (s : String)
deriving DecidableEq

/-- `search_params["quality"] += suffix` (string concatenation; the
quality entry is always a plain string when this runs). -/
def pvAppend (v : ParamValue) (suffix : String) : ParamValue :=
  match v with
  | .str s => .str (s ++ suffix)
  | .strSet s => .strSet s

/-- The parser state threaded through `yts.search` lines 116-161:
the residual text `what`, the accumulated `search_params` (in insertion
order), and the two locally kept filters. -/
structure ParseSt where
  what : List Char
  params : List (String × ParamValue)
  search_resolution : Option String
  search_codec : Option String
deriving DecidableEq

/-- Quality tagging (lines 119-126). -/
def qualityStep (st : ParseSt) : ParseSt :=
  match reFind qualityM st.what with
  | some cap =>
    { what := pyStrip (reSubAll qualityM st.what)
      params := st.params ++ [("quality", ParamValue.str cap)]
      search_resolution := some cap
      search_codec := st.search_codec }
  | none => st

/-- Codec tagging (lines 127-137): the canonical codec is `"x" ++ digits`;
it is appended to the `quality` parameter only when one is present. -/
def codecStep (st : ParseSt) : ParseSt :=
  match reFind codecM st.what with
  | some num =>
    let sc := "x" ++ num
    { what := pyStrip (reSubAll codecM st.what)
      params :=
        if st.params.any fun kv => kv.1 == "quality" then
          st.params.map fun kv =>
            if kv.1 == "quality" then (kv.1, pvAppend kv.2 ("." ++ sc))
            else kv
        else st.params
      search_resolution := st.search_resolution
      search_codec := some sc }
  | none => st

/-- Rating tagging (lines 139-145). The stored value is the set literal
`{min_rating}` from the source, modelled as `ParamValue.strSet`. -/
def ratingStep (st : ParseSt) : ParseSt :=
  match reFind ratingM st.what with
  | some d =>
    { st with
      what := pyStrip (reSubAll ratingM st.what)
      params := st.params ++ [("minimum_rating", ParamValue.strSet d)] }
  | none => st

/-- Genre tagging (lines 147-153). -/
def genreStep (st : ParseSt) : ParseSt :=
  match reFind genreM st.what with
  | some g =>
    { st with
      what := pyStrip (reSubAll genreM st.what)
      params := st.params ++ [("genre", ParamValue.str g)] }
  | none => st

/-- Page-guard removal (lines 155-157): unconditional sub + strip. -/
def pageStep (st : ParseSt) : ParseSt :=
  { st with what := pyStrip (reSubAll pageM st.what) }

/-- Lines 160-161: a non-empty residual becomes the `query_term`. -/
def queryTermStep (st : ParseSt) : ParseSt :=
  if st.what.isEmpty then st
  else
    { st with
      params := st.params ++
        [("query_term", ParamValue.str (String.mk st.what))] }

/-- The tag-extraction portion of `yts.search` (applied to the already
URL-unquoted query; `urllib.parse.unquote` is the identity on the plain
queries considered here). -/
def parseQuery (what : String) : ParseSt :=
  queryTermStep (pageStep (genreStep (ratingStep (codecStep
    (qualityStep { what := what.data, params := [],
                   search_resolution := none, search_codec := none })))))

/-! ### The orchestration part of `yts.search` (lines 159-197) -/

/-- Python `==` between a JSON value and a string literal: only equal
strings compare equal, any other value compares unequal (no error). -/
def jval_eq_str (v : JVal) (s : String) : Bool :=
  match v with
  | .jstr t => t == s
  | _ => false

/-- Python `==` between a JSON value and an integer literal. -/
def jval_eq_int (v : JVal) (k : Int) : Bool :=
  match v with
  | .jnum n => n == k
  | _ => false

mutual
/-- Python `repr` of a JSON value (ASCII strings, no escaping needed for
the values that occur here). -/
def pyRepr : JVal → String
  | .jnull => "None"
  | .jnum n => toString n
  | .jstr s => "\x27" ++ s ++ "\x27"
  | .jarr xs => "[" ++ pyReprList xs ++ "]"
  | .jobj fs => "\x7b" ++ pyReprObj fs ++ "\x7d"

def pyReprList : List JVal → String
  | [] => ""
  | [x] => pyRepr x
  | x :: y :: rest => pyRepr x ++ ", " ++ pyReprList (y :: rest)

def pyReprObj : List (String × JVal) → String
  | [] => ""
  | [kv] => "\x27" ++ kv.1 ++ "\x27: " ++ pyRepr kv.2
  | kv :: kw :: rest =>
    "\x27" ++ kv.1 ++ "\x27: " ++ pyRepr kv.2 ++ ", " ++ pyReprObj (kw :: rest)
end

/-- Python `str` of a JSON value (as used by f-string interpolation and
`str(...)`). -/
def pyStr (v : JVal) : String :=
  match v with
  | .jnull => "None"
  | .jnum n => toString n
  | .jstr s => s
  | .jarr xs => "[" ++ pyReprList xs ++ "]"
  | .jobj fs => "\x7b" ++ pyReprObj fs ++ "\x7d"

/-- Characters `urllib.parse.quote_plus` leaves alone (ASCII). -/
def urlSafeChar (c : Char) : Bool :=
  c.isAlphanum || c = '_' || c = '.' || c = '-' || c = '~'

def hexDigit (n : Nat) : Char :=
  if n < 10 then Char.ofNat (48 + n) else Char.ofNat (55 + n)

/-- `urllib.parse.quote_plus` on the ASCII strings that occur here
(spaces become `+`, other unsafe characters percent-encoded). -/
def quotePlus (s : String) : String :=
  String.join (s.data.map fun c =>
    if c = ' ' then "+"
    else if urlSafeChar c then String.singleton c
    else
      String.mk ['%', hexDigit (c.toNat / 16 % 16), hexDigit (c.toNat % 16)])

/-- Python `str()` of a `search_params` value as `urlencode` sees it:
plain strings stay themselves; the set literal from line 144 renders as
its `repr`, e.g. `{'7'}`. -/
def paramValStr (v : ParamValue) : String :=
  match v with
  | .str s => s
  | .strSet s => "\x7b\x27" ++ s ++ "\x27\x7d"

/-- `urllib.parse.urlencode` over the insertion-ordered parameters. -/
def urlencodeParams (ps : List (String × ParamValue)) : String :=
  String.intercalate "&"
    (ps.map fun kv => quotePlus kv.1 ++ "=" ++ quotePlus (paramValStr kv.2))

def yts_url : String := "https://yts.bz/"

def api_url : String := "https://yts.bz/api/v2/list_movies.json?"

/-- The `formatTorrent` dict passed to `prettyPrinter` (lines 187-196). -/
structure Emit where
  link : JVal
  name : String
  size : JVal
  seeds : String
  leech : String
  engine_url : String
  desc_link : JVal
  pub_date : JVal

/-- Lines 187-196: the record built for one surviving torrent. -/
def formatTorrent (m : yts_movie) (t : yts_torrent) : Emit :=
  { link := t.url
    name := pyStr m.title_long ++ " [" ++ pyStr t.quality ++ "] [" ++
      pyStr t.video_codec ++ "] [" ++ pyStr t.type ++ "] [" ++
      pyStr t.audio_channels ++ "] [YTS]"
    size := t.size
    seeds := pyStr t.seeds
    leech := pyStr t.peers
    engine_url := yts_url
    desc_link := m.url
    pub_date := t.date_uploaded_unix }

/-- Lines 183-197: the two `continue` guards, then the emission.
`search_codec`/`search_resolution` are either `None` or non-empty strings,
so Python truthiness coincides with `Option.isSome`. -/
def torrentEmit (cod rs : Option String) (m : yts_movie) (t : yts_torrent) :
    Option Emit :=
  if (match cod with
      | some c => !(jval_eq_str t.video_codec c)
      | none => false) then none
  else if (match rs with
      | some q => !(jval_eq_str t.quality q)
      | none => false) then none
  else some (formatTorrent m t)

/-- The inner `for torrent in movie.torrents` loop for one movie. -/
def movieEmits (cod rs : Option String) (m : yts_movie) : List Emit :=
  m.torrents.filterMap (torrentEmit cod rs m)

/-- Observable outcome of one `search` invocation: number of
`retrieve_url` calls, `print`ed lines, `prettyPrinter` emissions (in
order), and the Python exception that escaped, if any (prior prints and
emissions stand). -/
structure SearchOut where
  fetches : Nat
  prints : List String
  emits : List Emit
  err : Option PyErr

/-- Lines 175-197: the page loop. Each iteration fetches
`search_url&page=<page_no+1>`, re-decodes, and iterates
`api_result.data.movies` with no status or presence check; iterating an
absent (`None`) movies field raises `TypeError`. -/
def runPages (fetch : String → JVal) (base : String)
    (cod rs : Option String) : List Nat → SearchOut → SearchOut
  | [], acc => acc
  | p :: ps, acc =>
    match convert_responseJ (fetch (base ++ "&page=" ++ toString (p + 1))) with
    | .error e =>
      { fetches := acc.fetches + 1, prints := acc.prints,
        emits := acc.emits, err := some e }
    | .ok r =>
      match r.data.movies with
      | none =>
        { fetches := acc.fetches + 1, prints := acc.prints,
          emits := acc.emits, err := some .typeError }
      | some ms =>
        runPages fetch base cod rs ps
          { fetches := acc.fetches + 1, prints := acc.prints,
            emits := acc.emits ++ ms.flatMap (movieEmits cod rs),
            err := acc.err }

/-- `yts.search` (lines 105-197), with `retrieve_url ∘ json.loads`
abstracted as the `fetch` oracle (a transport failure or JSON decode
failure is outside this model; every claim concerns decoded bodies).
The `cat` argument is ignored by the source, and is omitted. -/
def yts_search (fetch : String → JVal) (what : String) : SearchOut :=
  let p := parseQuery what
  let base := api_url ++ urlencodeParams p.params
  match convert_responseJ (fetch base) with
  | .error e => { fetches := 1, prints := [], emits := [], err := some e }
  | .ok r =>
    if !(jval_eq_str r.status "ok") then
      -- line 170: print(api_result.status + api_result.status_message);
      -- `+` requires both to be strings, else TypeError
      match r.status, r.status_message with
      | .jstr s, .jstr m =>
        { fetches := 1, prints := [s ++ m], emits := [], err := none }
      | _, _ =>
        { fetches := 1, prints := [], emits := [], err := some .typeError }
    else if jval_eq_int r.data.movie_count 0 then
      { fetches := 1, prints := [], emits := [], err := none }
    else
      -- line 176: movie_count // limit — `//` needs two ints and a
      -- non-zero divisor (ZeroDivisionError otherwise); Python floor
      -- division is Int.fdiv
      match r.data.movie_count, r.data.limit with
      | .jnum c, .jnum l =>
        if l = 0 then
          { fetches := 1, prints := [], emits := [],
            err := some .zeroDivisionError }
        else
          runPages fetch base p.search_codec p.search_resolution
            (List.range (Int.toNat (c.fdiv l + 1)))
            { fetches := 1, prints := [], emits := [], err := none }
      | _, _ =>
        { fetches := 1, prints := [], emits := [], err := some .typeError }

/-- The `search_url` built at lines 114-163. -/
def searchBaseUrl (what : String) : String :=
  api_url ++ urlencodeParams (parseQuery what).params

/-! ### Infrastructure for quantifying over free-text words

The universally quantified parse claims are proved for an arbitrary
free-text query word `w` made of lowercase ASCII letters and inner spaces
(beginning and ending with a letter): none of the five patterns can match
inside such text, so the tag handling is independent of it. -/

def lcChars : List Char :=
  ['a', 'b', 'c', 'd', 'e', 'f', 'g', 'h', 'i', 'j', 'k', 'l', 'm',
   'n', 'o', 'p', 'q', 'r', 's', 't', 'u', 'v', 'w', 'x', 'y', 'z']

/-- A character the free-text word may contain. -/
def wchar (c : Char) : Bool := decide (c ∈ lcChars) || c == ' '

/-- A valid free-text word: non-empty, lowercase letters and spaces,
first and last characters letters. -/
def wordTok (w : List Char) : Bool :=
  (match w with
   | [] => false
   | c :: _ => decide (c ∈ lcChars)) &&
  w.all wchar &&
  (match w.reverse with
   | [] => false
   | d :: _ => decide (d ∈ lcChars))

/-- The rest of the query after the word either is empty or starts with a
separating space. -/
def restHeadOK (r : List Char) : Bool :=
  match r with
  | [] => true
  | c :: _ => c == ' '

/-- `qualityStep` as it acts on the part of the text after the free-text
word (only a right strip: on the full string the left strip is vacuous
because the text begins with the word). -/
def qualityStepT (st : ParseSt) : ParseSt :=
  match reFind qualityM st.what with
  | some cap =>
    { what := rstripL (reSubAll qualityM st.what)
      params := st.params ++ [("quality", ParamValue.str cap)]
      search_resolution := some cap
      search_codec := st.search_codec }
  | none => st

/-- `codecStep` on the after-word part. -/
def codecStepT (st : ParseSt) : ParseSt :=
  match reFind codecM st.what with
  | some num =>
    let sc := "x" ++ num
    { what := rstripL (reSubAll codecM st.what)
      params :=
        if st.params.any fun kv => kv.1 == "quality" then
          st.params.map fun kv =>
            if kv.1 == "quality" then (kv.1, pvAppend kv.2 ("." ++ sc))
            else kv
        else st.params
      search_resolution := st.search_resolution
      search_codec := some sc }
  | none => st

/-- `ratingStep` on the after-word part. -/
def ratingStepT (st : ParseSt) : ParseSt :=
  match reFind ratingM st.what with
  | some d =>
    { st with
      what := rstripL (reSubAll ratingM st.what)
      params := st.params ++ [("minimum_rating", ParamValue.strSet d)] }
  | none => st

/-- `genreStep` on the after-word part. -/
def genreStepT (st : ParseSt) : ParseSt :=
  match reFind genreM st.what with
  | some g =>
    { st with
      what := rstripL (reSubAll genreM st.what)
      params := st.params ++ [("genre", ParamValue.str g)] }
  | none => st

/-- `pageStep` on the after-word part. -/
def pageStepT (st : ParseSt) : ParseSt :=
  { st with what := rstripL (reSubAll pageM st.what) }

/-- The five passes on the after-word part. -/
def pipeT (st : ParseSt) : ParseSt :=
  pageStepT (genreStepT (ratingStepT (codecStepT (qualityStepT st))))

/-- Prepend the free-text word to a state's text. -/
def liftW (w : List Char) (st : ParseSt) : ParseSt :=
  { st with what := w ++ st.what }

/-- The after-word text keeps a separating space (or empties) at every
stage, so each pass can be lifted across the word. -/
def chainOK (st : ParseSt) : Bool :=
  restHeadOK st.what &&
  restHeadOK (qualityStepT st).what &&
  restHeadOK (codecStepT (qualityStepT st)).what &&
  restHeadOK (ratingStepT (codecStepT (qualityStepT st))).what &&
  restHeadOK (genreStepT (ratingStepT (codecStepT (qualityStepT st)))).what

/-- The tag suffix of a query holding a resolution tag `qt` and a codec
tag `ct`, in either order. -/
def tagRest (ordA : Bool) (qt ct : String) : List Char :=
  if ordA then (" " ++ qt ++ " " ++ ct).data else (" " ++ ct ++ " " ++ qt).data

/-- Decidable per-case check behind the compound resolution+codec claims:
for one combination of resolution, codec letter/digits, optional dot,
optional `quality=` prefix and order, the after-word pipeline produces the
compound quality parameter, the bare resolution, the canonical codec, and
consumes the whole tag text. -/
def tagCaseOK (res lett num : String) (dot qpre ordA : Bool) : Bool :=
  let ct := (if dot then "." else "") ++ lett ++ num
  let qt := (if qpre then "quality=" else "") ++ res
  let st0 : ParseSt :=
    { what := tagRest ordA qt ct, params := [],
      search_resolution := none, search_codec := none }
  chainOK st0 &&
  decide (pipeT st0 =
    { what := [],
      params := [("quality", ParamValue.str (res ++ "." ++ ("x" ++ num)))],
      search_resolution := some res,
      search_codec := some ("x" ++ num) })

/-- Decidable per-case check behind the duplicated-resolution-tag claim. -/
def dupResCaseOK (res1 res2 : String) : Bool :=
  let st0 : ParseSt :=
    { what := (" " ++ res1 ++ " " ++ res2).data, params := [],
      search_resolution := none, search_codec := none }
  chainOK st0 &&
  decide (pipeT st0 =
    { what := [],
      params := [("quality", ParamValue.str res1)],
      search_resolution := some res1,
      search_codec := none })

def digitChars : List Char :=
  ['0', '1', '2', '3', '4', '5', '6', '7', '8', '9']

/-- Decidable per-case check behind the duplicated-rating-tag claim. -/
def dupRatingCaseOK (d1 d2 : Char) : Bool :=
  let st0 : ParseSt :=
    { what := (" rating=" ++ String.singleton d1 ++ " min_rating=" ++
        String.singleton d2).data,
      params := [], search_resolution := none, search_codec := none }
  chainOK st0 &&
  decide (pipeT st0 =
    { what := [],
      params := [("minimum_rating", ParamValue.strSet (String.singleton d1))],
      search_resolution := none,
      search_codec := none })

/-- Association lookup over `search_params`. -/
def plookup (ps : List (String × ParamValue)) (k : String) :
    Option ParamValue :=
  match ps with
  | [] => none
  | (k', v) :: rest => if k' = k then some v else plookup rest k

/-! ### Concrete payloads used by counterexamples and witnesses -/

/-- A well-shaped page: `status="ok"`, `movie_count=20`, `limit=20`,
`movies=[]`. -/
def pageOk20 : JVal :=
  .jobj [("status", .jstr "ok"),
         ("status_message", .jstr "Query was successful"),
         ("data", .jobj [("movie_count", .jnum 20), ("limit", .jnum 20),
                         ("page_number", .jnum 1), ("movies", .jarr [])])]

/-- The decoded form of `pageOk20`. -/
def pageOk20R : yts_response :=
  { status := .jstr "ok", status_message := .jstr "Query was successful",
    data := { movie_count := .jnum 20, limit := .jnum 20,
              page_number := .jnum 1, movies := some [] } }

/-- An oracle answering every fetch with `pageOk20`. -/
def fetchConst20 : String → JVal := fun _ => pageOk20

/-- A well-shaped page whose `movies` field is absent (decodes to `None`). -/
def pageNoMovies : JVal :=
  .jobj [("status", .jstr "ok"), ("status_message", .jstr ""),
         ("data", .jobj [("movie_count", .jnum 20), ("limit", .jnum 20),
                         ("page_number", .jnum 2)])]

/-- The decoded form of `pageNoMovies`. -/
def pageNoMoviesR : yts_response :=
  { status := .jstr "ok", status_message := .jstr "",
    data := { movie_count := .jnum 20, limit := .jnum 20,
              page_number := .jnum 2, movies := none } }

/-- An oracle whose page 1 carries movies `[]` and whose page 2 lacks the
`movies` field. -/
def fetchPage2NoMovies : String → JVal := fun u =>
  if u = "b&page=1" then pageOk20 else pageNoMovies

/-- `status="ok"` but `limit=0` with `movie_count=5`. -/
def pageDiv0 : JVal :=
  .jobj [("status", .jstr "ok"), ("status_message", .jstr ""),
         ("data", .jobj [("movie_count", .jnum 5), ("limit", .jnum 0),
                         ("page_number", .jnum 1)])]

/-- The decoded form of `pageDiv0`. -/
def pageDiv0R : yts_response :=
  { status := .jstr "ok", status_message := .jstr "",
    data := { movie_count := .jnum 5, limit := .jnum 0,
              page_number := .jnum 1, movies := none } }

/-- An error-status response. -/
def pageErrStatus : JVal :=
  .jobj [("status", .jstr "error"), ("status_message", .jstr ": oops"),
         ("data", .jobj [("movie_count", .jnum 0), ("limit", .jnum 20),
                         ("page_number", .jnum 1)])]

/-- The decoded form of `pageErrStatus`. -/
def pageErrStatusR : yts_response :=
  { status := .jstr "error", status_message := .jstr ": oops",
    data := { movie_count := .jnum 0, limit := .jnum 20,
              page_number := .jnum 1, movies := none } }

/-- A payload whose recognized fields are well shaped but whose nested
`data` object carries one extra field. -/
def payloadExtraNested : JVal :=
  .jobj [("status", .jstr "ok"), ("status_message", .jstr ""),
         ("data", .jobj [("movie_count", .jnum 0), ("limit", .jnum 20),
                         ("page_number", .jnum 1), ("surprise", .jnum 1)])]

/-- The well-shaped top-level field list used to witness top-level
tolerance. -/
def wellShapedTop : List (String × JVal) :=
  [("status", .jstr "ok"), ("status_message", .jstr ""),
   ("data", .jobj [("movie_count", .jnum 0), ("limit", .jnum 20),
                   ("page_number", .jnum 1)])]

/-- A sample x264 torrent record. -/
def torrentX264 : yts_torrent :=
  yts_torrent.mk (.jstr "u264") (.jstr "h264hash") (.jstr "1080p")
    (.jstr "web") (.jstr "") (.jstr "x264") (.jstr "8") (.jstr "2.0")
    (.jnum 10) (.jnum 2) (.jstr "1.0 GB") (.jnum 1000000000)
    (.jstr "2024-01-01") (.jnum 1704067200)

/-- A sample x265 torrent record. -/
def torrentX265 : yts_torrent :=
  yts_torrent.mk (.jstr "u265") (.jstr "h265hash") (.jstr "1080p")
    (.jstr "bluray") (.jstr "") (.jstr "x265") (.jstr "10") (.jstr "5.1")
    (.jnum 20) (.jnum 4) (.jstr "0.7 GB") (.jnum 700000000)
    (.jstr "2024-01-02") (.jnum 1704153600)

/-- A sample movie owning the two torrents above. -/
def movieTwoCodecs : yts_movie :=
  yts_movie.mk (.jnum 1) (.jstr "https://yts.bz/movies/sample")
    (.jstr "tt0000001") (.jstr "Sample") (.jstr "Sample")
    (.jstr "Sample (2024)") (.jstr "sample") (.jnum 2024) (.jnum 7)
    (.jnum 120) (.jarr [.jstr "Drama"]) (.jstr "") (.jstr "") (.jstr "")
    (.jstr "") (.jstr "en") (.jstr "PG") (.jstr "") (.jstr "") (.jstr "")
    (.jstr "") (.jstr "") (.jstr "ok") [torrentX264, torrentX265]
    (.jstr "2024-01-01") (.jnum 1704067200)

/-! ### No pattern matches inside the free-text word -/

theorem litM_eq_some : ∀ (L s r : List Char), litM L s = some r → s = L ++ r := by
  intro L
  induction L with
  | nil =>
    intro s r h
    simp only [litM, Option.some.injEq] at h
    simp [h]
  | cons l ls ih =>
    intro s r h
    cases s with
    | nil => simp [litM] at h
    | cons c cs =>
      by_cases hc : c = l
      · rw [litM, if_pos hc] at h
        rw [hc, List.cons_append, ← ih cs r h]
      · rw [litM, if_neg hc] at h
        cases h

/-- A word of `wchar`s followed by an empty-or-space-headed rest can never
begin with a literal `L` that contains no space but some non-`wchar`
character. -/
theorem no_cross : ∀ (u L rest t : List Char) (j : Nat) (hj : j < L.length),
    wchar (L.get ⟨j, hj⟩) = false → ' ' ∉ L →
    (∀ c ∈ u, wchar c = true) → restHeadOK rest = true →
    u ++ rest ≠ L ++ t := by
  intro u
  induction u with
  | nil =>
    intro L rest t j hj hbad hsp hu hr heq
    simp only [List.nil_append] at heq
    cases L with
    | nil => simp at hj
    | cons c L' =>
      subst heq
      simp only [restHeadOK, List.cons_append, beq_iff_eq] at hr
      exact hsp (hr ▸ List.mem_cons_self c L')
  | cons a u' ih =>
    intro L rest t j hj hbad hsp hu hr heq
    cases L with
    | nil => simp at hj
    | cons c L' =>
      simp only [List.cons_append, List.cons.injEq] at heq
      obtain ⟨hac, htl⟩ := heq
      cases j with
      | zero =>
        have ha : wchar a = true := hu a (List.mem_cons_self a u')
        rw [hac] at ha
        rw [List.get] at hbad
        rw [ha] at hbad
        cases hbad
      | succ j' =>
        have hj' : j' < L'.length := by
          simpa [Nat.succ_lt_succ_iff] using hj
        have hbad' : wchar (L'.get ⟨j', hj'⟩) = false := hbad
        have hsp' : ' ' ∉ L' := fun h => hsp (List.mem_cons_of_mem c h)
        have hu' : ∀ x ∈ u', wchar x = true :=
          fun x hx => hu x (List.mem_cons_of_mem a hx)
        exact ih L' rest t j' hj' hbad' hsp' hu' hr htl

/-- Failure of a literal at any position inside the word, given a witness
index of a non-`wchar` character of the literal. -/
theorem litM_append_none (L : List Char) (j : Nat) (hj : j < L.length)
    (hbad : wchar (L.get ⟨j, hj⟩) = false) (hsp : ' ' ∉ L)
    (u rest : List Char) (hu : ∀ c ∈ u, wchar c = true)
    (hr : restHeadOK rest = true) : litM L (u ++ rest) = none := by
  cases h : litM L (u ++ rest) with
  | none => rfl
  | some r =>
    exact absurd (litM_eq_some L _ r h)
      (no_cross u L rest r j hj hbad hsp hu hr)

theorem tryAltsQ_append_none (u rest : List Char)
    (hu : ∀ c ∈ u, wchar c = true) (hr : restHeadOK rest = true) :
    tryAlts qualityAlts (u ++ rest) = none := by
  have h1 := litM_append_none "2160p".data 0 (by decide) (by decide)
    (by decide) u rest hu hr
  have h2 := litM_append_none "1440p".data 0 (by decide) (by decide)
    (by decide) u rest hu hr
  have h3 := litM_append_none "1080p".data 0 (by decide) (by decide)
    (by decide) u rest hu hr
  have h4 := litM_append_none "720p".data 0 (by decide) (by decide)
    (by decide) u rest hu hr
  have h5 := litM_append_none "480p".data 0 (by decide) (by decide)
    (by decide) u rest hu hr
  have h6 := litM_append_none "240p".data 0 (by decide) (by decide)
    (by decide) u rest hu hr
  have h7 := litM_append_none "3D".data 0 (by decide) (by decide)
    (by decide) u rest hu hr
  simp [qualityAlts, tryAlts, h1, h2, h3, h4, h5, h6, h7]

theorem qualityM_append_none (u rest : List Char)
    (hu : ∀ c ∈ u, wchar c = true) (hr : restHeadOK rest = true) :
    qualityM (u ++ rest) = none := by
  have hq := litM_append_none "quality=".data 7 (by decide) (by decide)
    (by decide) u rest hu hr
  have ha := tryAltsQ_append_none u rest hu hr
  simp [qualityM, hq, ha]

/-- A `wchar` never equals a non-`wchar` character. -/
theorem wchar_ne_of (a : Char) (ha : wchar a = true) (d : Char)
    (hd : wchar d = false) : a ≠ d := by
  intro h
  rw [h, hd] at ha
  cases ha

theorem codecInner_append_none (u rest : List Char)
    (hu : ∀ c ∈ u, wchar c = true) (hr : restHeadOK rest = true) :
    codecInner (u ++ rest) = none := by
  cases u with
  | nil =>
    cases rest with
    | nil => rfl
    | cons c r' =>
      simp only [restHeadOK, beq_iff_eq] at hr
      subst hr
      simp [codecInner]
  | cons a u' =>
    have ha : wchar a = true := hu a (List.mem_cons_self a u')
    have hu' : ∀ x ∈ u', wchar x = true :=
      fun x hx => hu x (List.mem_cons_of_mem a hx)
    by_cases hax : a = 'x' ∨ a = 'h'
    · have h4 := litM_append_none "264".data 0 (by decide) (by decide)
        (by decide) u' rest hu' hr
      have h5 := litM_append_none "265".data 0 (by decide) (by decide)
        (by decide) u' rest hu' hr
      simp [codecInner, hax, h4, h5]
    · simp [codecInner, hax]

theorem codecM_append_none (u rest : List Char)
    (hu : ∀ c ∈ u, wchar c = true) (hr : restHeadOK rest = true) :
    codecM (u ++ rest) = none := by
  have hi := codecInner_append_none u rest hu hr
  cases u with
  | nil =>
    simp only [List.nil_append] at hi ⊢
    cases rest with
    | nil => rfl
    | cons c r' =>
      simp only [restHeadOK, beq_iff_eq] at hr
      subst hr
      simp [codecM, hi]
  | cons a u' =>
    have ha : wchar a = true := hu a (List.mem_cons_self a u')
    have hdot : a ≠ '.' := wchar_ne_of a ha '.' (by decide)
    simp only [List.cons_append] at hi
    simp [codecM, hdot, hi]

theorem ratingBase_append_none (u rest : List Char)
    (hu : ∀ c ∈ u, wchar c = true) (hr : restHeadOK rest = true) :
    ratingBase (u ++ rest) = none := by
  have h := litM_append_none "rating=".data 6 (by decide) (by decide)
    (by decide) u rest hu hr
  simp [ratingBase, h]

theorem ratingTail_append_none (u rest : List Char)
    (hu : ∀ c ∈ u, wchar c = true) (hr : restHeadOK rest = true) :
    ratingTail (u ++ rest) = none := by
  have h4 := litM_append_none "min_".data 3 (by decide) (by decide)
    (by decide) u rest hu hr
  have hb := ratingBase_append_none u rest hu hr
  simp [ratingTail, h4, hb]

theorem ratingM_append_none (u rest : List Char)
    (hu : ∀ c ∈ u, wchar c = true) (hr : restHeadOK rest = true) :
    ratingM (u ++ rest) = none := by
  have h8 := litM_append_none "minimum_".data 7 (by decide) (by decide)
    (by decide) u rest hu hr
  have ht := ratingTail_append_none u rest hu hr
  simp [ratingM, h8, ht]

theorem genreM_append_none (u rest : List Char)
    (hu : ∀ c ∈ u, wchar c = true) (hr : restHeadOK rest = true) :
    genreM (u ++ rest) = none := by
  have h := litM_append_none "genre=".data 5 (by decide) (by decide)
    (by decide) u rest hu hr
  simp [genreM, h]

theorem pageM_append_none (u rest : List Char)
    (hu : ∀ c ∈ u, wchar c = true) (hr : restHeadOK rest = true) :
    pageM (u ++ rest) = none := by
  have h := litM_append_none "&page=".data 0 (by decide) (by decide)
    (by decide) u rest hu hr
  simp [pageM, h]

/-! ### Lifting the passes across the free-text word -/

/-- `re.search` skips the word when the pattern cannot match inside it. -/
theorem reFind_append (M : Matcher)
    (hM : ∀ u r, (∀ c ∈ u, wchar c = true) → restHeadOK r = true →
      M (u ++ r) = none)
    (w rest : List Char) (hw : ∀ c ∈ w, wchar c = true)
    (hr : restHeadOK rest = true) :
    reFind M (w ++ rest) = reFind M rest := by
  induction w with
  | nil => rfl
  | cons c w' ih =>
    have h0 : M ((c :: w') ++ rest) = none := hM (c :: w') rest hw hr
    have hw' : ∀ x ∈ w', wchar x = true :=
      fun x hx => hw x (List.mem_cons_of_mem c hx)
    simp only [List.cons_append] at h0 ⊢
    rw [reFind, h0]
    exact ih hw'

/-- `re.sub` keeps the word intact when the pattern cannot match inside
it. -/
theorem reSubAll_append (M : Matcher)
    (hM : ∀ u r, (∀ c ∈ u, wchar c = true) → restHeadOK r = true →
      M (u ++ r) = none)
    (w rest : List Char) (hw : ∀ c ∈ w, wchar c = true)
    (hr : restHeadOK rest = true) :
    reSubAll M (w ++ rest) = w ++ reSubAll M rest := by
  unfold reSubAll
  induction w with
  | nil => simp
  | cons c w' ih =>
    have h0 : M ((c :: w') ++ rest) = none := hM (c :: w') rest hw hr
    have hw' : ∀ x ∈ w', wchar x = true :=
      fun x hx => hw x (List.mem_cons_of_mem c hx)
    simp only [List.cons_append] at h0 ⊢
    simp only [List.length_cons]
    rw [reSubGo, h0]
    simp only [List.length_append] at ih ⊢
    rw [ih hw']

theorem wordTok_all (w : List Char) (hw : wordTok w = true) :
    ∀ c ∈ w, wchar c = true := by
  unfold wordTok at hw
  rw [Bool.and_eq_true, Bool.and_eq_true] at hw
  exact List.all_eq_true.mp hw.1.2

theorem wordTok_head (w : List Char) (hw : wordTok w = true) :
    ∃ c w'', w = c :: w'' ∧ c ∈ lcChars := by
  unfold wordTok at hw
  rw [Bool.and_eq_true, Bool.and_eq_true] at hw
  have h1 := hw.1.1
  cases w with
  | nil => cases h1
  | cons c w'' => exact ⟨c, w'', rfl, of_decide_eq_true h1⟩

theorem wordTok_rev (w : List Char) (hw : wordTok w = true) :
    ∃ d v, w.reverse = d :: v ∧ d ∈ lcChars := by
  unfold wordTok at hw
  rw [Bool.and_eq_true, Bool.and_eq_true] at hw
  have h3 := hw.2
  cases hrev : w.reverse with
  | nil => rw [hrev] at h3; cases h3
  | cons d v => rw [hrev] at h3; exact ⟨d, v, rfl, of_decide_eq_true h3⟩

theorem lc_not_space : ∀ c ∈ lcChars, isSpaceCh c = false := by decide

/-- Stripping after a removal only strips on the right of the word:
the word's first and last characters are letters. -/
theorem pyStrip_append (w rest : List Char) (hw : wordTok w = true) :
    pyStrip (w ++ rest) = w ++ rstripL rest := by
  obtain ⟨c, w'', hcw, hclc⟩ := wordTok_head w hw
  obtain ⟨d, v, hdv, hdlc⟩ := wordTok_rev w hw
  have hcns : isSpaceCh c = false := lc_not_space c hclc
  have hdns : isSpaceCh d = false := lc_not_space d hdlc
  unfold pyStrip lstripL rstripL
  have hL : List.dropWhile isSpaceCh (w ++ rest) = w ++ rest := by
    rw [hcw, List.cons_append,
      List.dropWhile_cons_of_neg (by simp [hcns]), ← List.cons_append]
  rw [hL, List.reverse_append]
  have hwrev : List.dropWhile isSpaceCh w.reverse = w.reverse := by
    rw [hdv, List.dropWhile_cons_of_neg (by simp [hdns])]
  rw [List.dropWhile_append]
  by_cases he : (List.dropWhile isSpaceCh rest.reverse).isEmpty
  · rw [if_pos he, hwrev, List.reverse_reverse]
    rw [List.isEmpty_iff] at he
    rw [he]
    simp
  · rw [if_neg he, List.reverse_append, List.reverse_reverse]

theorem qualityStep_liftW (w : List Char) (hw : wordTok w = true)
    (st : ParseSt) (hst : restHeadOK st.what = true) :
    qualityStep (liftW w st) = liftW w (qualityStepT st) := by
  obtain ⟨r, ps, rs, cd⟩ := st
  have hwa := wordTok_all w hw
  have hfind := reFind_append qualityM qualityM_append_none w r hwa hst
  have hsub := reSubAll_append qualityM qualityM_append_none w r hwa hst
  unfold liftW qualityStep qualityStepT
  simp only
  rw [hfind]
  cases h : reFind qualityM r with
  | none => rfl
  | some cap => rw [hsub, pyStrip_append _ _ hw]

theorem codecStep_liftW (w : List Char) (hw : wordTok w = true)
    (st : ParseSt) (hst : restHeadOK st.what = true) :
    codecStep (liftW w st) = liftW w (codecStepT st) := by
  obtain ⟨r, ps, rs, cd⟩ := st
  have hwa := wordTok_all w hw
  have hfind := reFind_append codecM codecM_append_none w r hwa hst
  have hsub := reSubAll_append codecM codecM_append_none w r hwa hst
  unfold liftW codecStep codecStepT
  simp only
  rw [hfind]
  cases h : reFind codecM r with
  | none => rfl
  | some num => rw [hsub, pyStrip_append _ _ hw]

theorem ratingStep_liftW (w : List Char) (hw : wordTok w = true)
    (st : ParseSt) (hst : restHeadOK st.what = true) :
    ratingStep (liftW w st) = liftW w (ratingStepT st) := by
  obtain ⟨r, ps, rs, cd⟩ := st
  have hwa := wordTok_all w hw
  have hfind := reFind_append ratingM ratingM_append_none w r hwa hst
  have hsub := reSubAll_append ratingM ratingM_append_none w r hwa hst
  unfold liftW ratingStep ratingStepT
  simp only
  rw [hfind]
  cases h : reFind ratingM r with
  | none => rfl
  | some d => rw [hsub, pyStrip_append _ _ hw]

theorem genreStep_liftW (w : List Char) (hw : wordTok w = true)
    (st : ParseSt) (hst : restHeadOK st.what = true) :
    genreStep (liftW w st) = liftW w (genreStepT st) := by
  obtain ⟨r, ps, rs, cd⟩ := st
  have hwa := wordTok_all w hw
  have hfind := reFind_append genreM genreM_append_none w r hwa hst
  have hsub := reSubAll_append genreM genreM_append_none w r hwa hst
  unfold liftW genreStep genreStepT
  simp only
  rw [hfind]
  cases h : reFind genreM r with
  | none => rfl
  | some g => rw [hsub, pyStrip_append _ _ hw]

theorem pageStep_liftW (w : List Char) (hw : wordTok w = true)
    (st : ParseSt) (hst : restHeadOK st.what = true) :
    pageStep (liftW w st) = liftW w (pageStepT st) := by
  obtain ⟨r, ps, rs, cd⟩ := st
  have hwa := wordTok_all w hw
  have hsub := reSubAll_append pageM pageM_append_none w r hwa hst
  unfold liftW pageStep pageStepT
  simp only
  rw [hsub, pyStrip_append _ _ hw]

/-- Master lemma: on a query `word ++ tags`, the whole tag-extraction
pipeline acts on the tag part alone, with the word re-attached in front;
`queryTermStep` then sees the concatenation. -/
theorem parseQuery_lift (w r0 : List Char) (hw : wordTok w = true)
    (hchain : chainOK (ParseSt.mk r0 [] none none) = true) :
    parseQuery (String.mk (w ++ r0)) =
      queryTermStep (liftW w (pipeT (ParseSt.mk r0 [] none none))) := by
  unfold chainOK at hchain
  simp only [Bool.and_eq_true] at hchain
  obtain ⟨⟨⟨⟨h0, h1⟩, h2⟩, h3⟩, h4⟩ := hchain
  show queryTermStep (pageStep (genreStep (ratingStep (codecStep
    (qualityStep (liftW w (ParseSt.mk r0 [] none none))))))) = _
  rw [qualityStep_liftW w hw _ h0, codecStep_liftW w hw _ h1,
      ratingStep_liftW w hw _ h2, genreStep_liftW w hw _ h3,
      pageStep_liftW w hw _ h4]
  rfl

/-! ### Enumerated tag-case facts (checked by the kernel) -/

set_option maxHeartbeats 1000000 in
theorem tag_cases : ∀ res ∈ qualityAlts, ∀ lett ∈ (["x", "h"] : List String),
    ∀ num ∈ (["264", "265"] : List String),
    ∀ dot ∈ ([true, false] : List Bool), ∀ qpre ∈ ([true, false] : List Bool),
    ∀ ordA ∈ ([true, false] : List Bool),
    tagCaseOK res lett num dot qpre ordA = true := by decide

set_option maxHeartbeats 1000000 in
theorem dup_res_cases : ∀ r1 ∈ qualityAlts, ∀ r2 ∈ qualityAlts,
    dupResCaseOK r1 r2 = true := by decide

set_option maxHeartbeats 1000000 in
theorem dup_rating_cases : ∀ d1 ∈ digitChars, ∀ d2 ∈ digitChars,
    dupRatingCaseOK d1 d2 = true := by decide

/-- With both filters set, a torrent survives the two `continue` guards
exactly when both raw fields equal the filter strings. -/
theorem torrentEmit_isSome_somes (c q : String) (m : yts_movie)
    (t : yts_torrent) :
    (torrentEmit (some c) (some q) m t).isSome =
      (jval_eq_str t.video_codec c && jval_eq_str t.quality q) := by
  unfold torrentEmit
  cases hc : jval_eq_str t.video_codec c <;>
    cases hq : jval_eq_str t.quality q <;> simp [hc, hq]

/-! ### Claim theorems -/

/-- C1 (code bug witnessed on the claim's own example): parsing
`"foo rating=7 genre=horror"` leaves free text `"foo"` and extracts the
genre, but the rating parameter is stored as the Python set literal
`{min_rating}` (a one-element set of the digit string, line 144 of the
source), not the numeric value 7 — so the outgoing URL carries
`minimum_rating=%7B%277%27%7D` instead of `minimum_rating=7`. -/
theorem c1_rating_set_literal :
    parseQuery "foo rating=7 genre=horror" =
      ParseSt.mk "foo".data
        [("minimum_rating", ParamValue.strSet "7"),
         ("genre", ParamValue.str "horror"),
         ("query_term", ParamValue.str "foo")] none none ∧
    ParamValue.strSet "7" ≠ ParamValue.str "7" ∧
    searchBaseUrl "foo rating=7 genre=horror" =
      "https://yts.bz/api/v2/list_movies.json?minimum_rating=%7B%277%27%7D&genre=horror&query_term=foo" :=
  ⟨rfl, by decide, rfl⟩

/-- C6: for every raw query `word ++ tags` containing a supported
resolution tag (with or without the `quality=` prefix) and a codec tag
(`x`/`h`, optional leading dot, `264`/`265`), in either order, parsing
yields the compound `quality` parameter `"<res>.<x-codec>"`, the bare
resolution and canonical codec filters, and the untouched free text. -/
theorem c6_compound_resolution (w : List Char) (res lett num : String)
    (dot qpre ordA : Bool) (hw : wordTok w = true) (hres : res ∈ qualityAlts)
    (hlett : lett ∈ (["x", "h"] : List String))
    (hnum : num ∈ (["264", "265"] : List String)) :
    parseQuery (String.mk (w ++ tagRest ordA
        ((if qpre then "quality=" else "") ++ res)
        ((if dot then "." else "") ++ lett ++ num))) =
      ParseSt.mk w
        [("quality", ParamValue.str (res ++ "." ++ ("x" ++ num))),
         ("query_term", ParamValue.str (String.mk w))]
        (some res) (some ("x" ++ num)) := by
  have hdot : dot ∈ ([true, false] : List Bool) := by cases dot <;> decide
  have hqpre : qpre ∈ ([true, false] : List Bool) := by cases qpre <;> decide
  have hordA : ordA ∈ ([true, false] : List Bool) := by cases ordA <;> decide
  have hcase := tag_cases res hres lett hlett num hnum dot hdot qpre hqpre
    ordA hordA
  simp only [tagCaseOK, Bool.and_eq_true, decide_eq_true_eq] at hcase
  obtain ⟨hchain, hpipe⟩ := hcase
  rw [parseQuery_lift _ _ hw hchain, hpipe]
  obtain ⟨c, w'', hc, _⟩ := wordTok_head w hw
  subst hc
  simp [queryTermStep, liftW]

/-- Witness for C6 at the spec's own example
`parse("dune quality=720p x265")`. -/
theorem c6_compound_resolution_witness :
    parseQuery "dune quality=720p x265" =
      ParseSt.mk "dune".data
        [("quality", ParamValue.str "720p.x265"),
         ("query_term", ParamValue.str "dune")]
        (some "720p") (some "x265") :=
  c6_compound_resolution "dune".data "720p" "x" "265" false true true
    (by decide) (by decide) (by decide) (by decide)

/-- C9: the local per-torrent resolution comparison uses the bare
resolution captured before the codec suffix was appended: for every
word+tags query, `search_resolution` stays `"<res>"` while the outgoing
`quality` parameter becomes `"<res>.<x-codec>"`, and a torrent passes the
two local guards exactly when its `video_codec` equals the canonical
codec and its `quality` equals the bare resolution. -/
theorem c9_bare_resolution (w : List Char) (res lett num : String)
    (dot qpre ordA : Bool) (hw : wordTok w = true) (hres : res ∈ qualityAlts)
    (hlett : lett ∈ (["x", "h"] : List String))
    (hnum : num ∈ (["264", "265"] : List String)) :
    (parseQuery (String.mk (w ++ tagRest ordA
        ((if qpre then "quality=" else "") ++ res)
        ((if dot then "." else "") ++ lett ++ num)))).search_resolution =
      some res ∧
    plookup (parseQuery (String.mk (w ++ tagRest ordA
        ((if qpre then "quality=" else "") ++ res)
        ((if dot then "." else "") ++ lett ++ num)))).params "quality" =
      some (ParamValue.str (res ++ "." ++ ("x" ++ num))) ∧
    ∀ (m : yts_movie) (t : yts_torrent),
      (torrentEmit
          (parseQuery (String.mk (w ++ tagRest ordA
            ((if qpre then "quality=" else "") ++ res)
            ((if dot then "." else "") ++ lett ++ num)))).search_codec
          (parseQuery (String.mk (w ++ tagRest ordA
            ((if qpre then "quality=" else "") ++ res)
            ((if dot then "." else "") ++ lett ++ num)))).search_resolution
          m t).isSome =
        (jval_eq_str t.video_codec ("x" ++ num) &&
         jval_eq_str t.quality res) := by
  have hdot : dot ∈ ([true, false] : List Bool) := by cases dot <;> decide
  have hqpre : qpre ∈ ([true, false] : List Bool) := by cases qpre <;> decide
  have hordA : ordA ∈ ([true, false] : List Bool) := by cases ordA <;> decide
  have hcase := tag_cases res hres lett hlett num hnum dot hdot qpre hqpre
    ordA hordA
  simp only [tagCaseOK, Bool.and_eq_true, decide_eq_true_eq] at hcase
  obtain ⟨hchain, hpipe⟩ := hcase
  rw [parseQuery_lift _ _ hw hchain, hpipe]
  obtain ⟨c, w'', hc, _⟩ := wordTok_head w hw
  subst hc
  refine ⟨by simp [queryTermStep, liftW], by simp [queryTermStep, liftW, plookup], ?_⟩
  intro m t
  have hsc : (queryTermStep (liftW (c :: w'') (ParseSt.mk []
      [("quality", ParamValue.str (res ++ "." ++ ("x" ++ num)))]
      (some res) (some ("x" ++ num))))).search_codec = some ("x" ++ num) := by
    simp [queryTermStep, liftW]
  have hsr : (queryTermStep (liftW (c :: w'') (ParseSt.mk []
      [("quality", ParamValue.str (res ++ "." ++ ("x" ++ num)))]
      (some res) (some ("x" ++ num))))).search_resolution = some res := by
    simp [queryTermStep, liftW]
  rw [hsc, hsr]
  exact torrentEmit_isSome_somes ("x" ++ num) res m t

/-- Witness for C9 at `parse("dune quality=720p x265")` together with a
torrent carrying the compound string as its quality (which is rejected by
the resolution guard, since the comparison uses the bare value). -/
theorem c9_bare_resolution_witness :
    (parseQuery "dune quality=720p x265").search_resolution = some "720p" ∧
    plookup (parseQuery "dune quality=720p x265").params "quality" =
      some (ParamValue.str "720p.x265") ∧
    ∀ (m : yts_movie) (t : yts_torrent),
      (torrentEmit (parseQuery "dune quality=720p x265").search_codec
          (parseQuery "dune quality=720p x265").search_resolution m t).isSome =
        (jval_eq_str t.video_codec "x265" && jval_eq_str t.quality "720p") :=
  c9_bare_resolution "dune".data "720p" "x" "265" false true true
    (by decide) (by decide) (by decide) (by decide)

/-- C10: when the same tag pattern occurs twice, the filter value comes
from the first occurrence but both occurrences are removed from the free
text: shown for two resolution tags and for two rating tags around an
arbitrary free-text word. -/
theorem c10_duplicate_tags (w : List Char) (res1 res2 : String)
    (d1 d2 : Char) (hw : wordTok w = true) (h1 : res1 ∈ qualityAlts)
    (h2 : res2 ∈ qualityAlts) (hd1 : d1 ∈ digitChars)
    (hd2 : d2 ∈ digitChars) :
    parseQuery (String.mk (w ++ (" " ++ res1 ++ " " ++ res2).data)) =
      ParseSt.mk w
        [("quality", ParamValue.str res1),
         ("query_term", ParamValue.str (String.mk w))]
        (some res1) none ∧
    parseQuery (String.mk (w ++ (" rating=" ++ String.singleton d1 ++
        " min_rating=" ++ String.singleton d2).data)) =
      ParseSt.mk w
        [("minimum_rating", ParamValue.strSet (String.singleton d1)),
         ("query_term", ParamValue.str (String.mk w))]
        none none := by
  have hcr := dup_res_cases res1 h1 res2 h2
  have hcd := dup_rating_cases d1 hd1 d2 hd2
  simp only [dupResCaseOK, Bool.and_eq_true, decide_eq_true_eq] at hcr
  simp only [dupRatingCaseOK, Bool.and_eq_true, decide_eq_true_eq] at hcd
  obtain ⟨hchain1, hpipe1⟩ := hcr
  obtain ⟨hchain2, hpipe2⟩ := hcd
  obtain ⟨c, w'', hc, _⟩ := wordTok_head w hw
  constructor
  · rw [parseQuery_lift _ _ hw hchain1, hpipe1]
    subst hc
    simp [queryTermStep, liftW]
  · rw [parseQuery_lift _ _ hw hchain2, hpipe2]
    subst hc
    simp [queryTermStep, liftW]

/-- Witness for C10 at `parse("foo 1080p 720p")` and
`parse("foo rating=3 min_rating=7")`. -/
theorem c10_duplicate_tags_witness :
    parseQuery "foo 1080p 720p" =
      ParseSt.mk "foo".data
        [("quality", ParamValue.str "1080p"),
         ("query_term", ParamValue.str "foo")]
        (some "1080p") none ∧
    parseQuery "foo rating=3 min_rating=7" =
      ParseSt.mk "foo".data
        [("minimum_rating", ParamValue.strSet "3"),
         ("query_term", ParamValue.str "foo")]
        none none :=
  c10_duplicate_tags "foo".data "1080p" "720p" '3' '7'
    (by decide) (by decide) (by decide) (by decide) (by decide)

/-- C8: with the codec filter `"x265"` set, a movie holding one x264 and
one x265 torrent emits exactly the formatted x265 torrent; in general a
torrent is skipped whenever a set codec filter differs from its
`video_codec`, and whenever a set resolution filter differs from its
`quality`. -/
theorem c8_codec_filter :
    (∀ (m : yts_movie) (t1 t2 : yts_torrent), m.torrents = [t1, t2] →
      t1.video_codec = .jstr "x264" → t2.video_codec = .jstr "x265" →
      movieEmits (some "x265") none m = [formatTorrent m t2]) ∧
    (∀ (c : String) (rs : Option String) (m : yts_movie) (t : yts_torrent),
      jval_eq_str t.video_codec c = false →
      torrentEmit (some c) rs m t = none) ∧
    (∀ (co : Option String) (q : String) (m : yts_movie) (t : yts_torrent),
      jval_eq_str t.quality q = false →
      torrentEmit co (some q) m t = none) := by
  refine ⟨?_, ?_, ?_⟩
  · intro m t1 t2 hts h1 h2
    unfold movieEmits
    rw [hts]
    simp [List.filterMap, torrentEmit, jval_eq_str, h1, h2]
  · intro c rs m t h
    simp [torrentEmit, h]
  · intro co q m t h
    cases co with
    | none => simp [torrentEmit, h]
    | some c =>
      by_cases hc : jval_eq_str t.video_codec c <;> simp [torrentEmit, h, hc]

/-- Witness for C8 on the sample movie with one x264 and one x265
torrent, plus the two skip guards at mismatching concrete torrents. -/
theorem c8_codec_filter_witness :
    movieEmits (some "x265") none movieTwoCodecs =
      [formatTorrent movieTwoCodecs torrentX265] ∧
    torrentEmit (some "x265") none movieTwoCodecs torrentX264 = none ∧
    torrentEmit (some "x265") (some "720p") movieTwoCodecs torrentX265 =
      none :=
  ⟨c8_codec_filter.1 movieTwoCodecs torrentX264 torrentX265 rfl rfl rfl,
   c8_codec_filter.2.1 "x265" none movieTwoCodecs torrentX264 rfl,
   c8_codec_filter.2.2 (some "x265") "720p" movieTwoCodecs torrentX265 rfl⟩

/-- C7: whenever the first decoded response has a string status different
from `"ok"` (and a string message), the search prints the concatenated
status and message, performs no further fetch, emits nothing, and returns
without an exception. -/
theorem c7_error_status (fetch : String → JVal) (what s m : String)
    (r : yts_response)
    (h1 : convert_responseJ (fetch (searchBaseUrl what)) = .ok r)
    (h2 : r.status = .jstr s) (h3 : s ≠ "ok")
    (h4 : r.status_message = .jstr m) :
    yts_search fetch what = SearchOut.mk 1 [s ++ m] [] none := by
  obtain ⟨st, sm, d⟩ := r
  change st = .jstr s at h2
  change sm = .jstr m at h4
  subst h2
  subst h4
  unfold searchBaseUrl at h1
  simp only [yts_search]
  rw [h1]
  have hne : (s == "ok") = false := beq_eq_false_iff_ne.mpr h3
  simp [jval_eq_str, hne]

/-- Witness for C7 on a concrete `status="error"` response. -/
theorem c7_error_status_witness :
    yts_search (fun _ => pageErrStatus) "q" =
      SearchOut.mk 1 ["error: oops"] [] none :=
  c7_error_status (fun _ => pageErrStatus) "q" "error" ": oops"
    pageErrStatusR rfl rfl (by decide) rfl

/-- C5 (amended): when the first response is `ok` with a non-zero
`movie_count` and `limit = 0`, the page-count division raises
`ZeroDivisionError`, which propagates — there is no explicit guard
converting this to malformed-response handling. -/
theorem c5_divzero_amended (fetch : String → JVal) (what : String)
    (r : yts_response) (c : Int)
    (h1 : convert_responseJ (fetch (searchBaseUrl what)) = .ok r)
    (hst : r.status = .jstr "ok")
    (hc : r.data.movie_count = .jnum c) (hc0 : c ≠ 0)
    (hl : r.data.limit = .jnum 0) :
    yts_search fetch what = SearchOut.mk 1 [] [] (some .zeroDivisionError) := by
  obtain ⟨st, sm, d⟩ := r
  obtain ⟨mc, lim, pn, mv⟩ := d
  change st = .jstr "ok" at hst
  change mc = .jnum c at hc
  change lim = .jnum 0 at hl
  subst hst
  subst hc
  subst hl
  unfold searchBaseUrl at h1
  simp only [yts_search]
  rw [h1]
  have hne : (c == (0 : Int)) = false := beq_eq_false_iff_ne.mpr hc0
  simp [jval_eq_str, jval_eq_int, hne]

/-- Witness for C5 (amended) at a concrete `limit=0` response. -/
theorem c5_divzero_witness :
    yts_search (fun _ => pageDiv0) "q" =
      SearchOut.mk 1 [] [] (some .zeroDivisionError) :=
  c5_divzero_amended (fun _ => pageDiv0) "q" pageDiv0R 5 rfl rfl rfl
    (by decide) rfl

/-- C5 counterexample: the claim says the `limit=0` case is handled like
a malformed response (a decode failure, which surfaces as `TypeError`);
the code instead lets `ZeroDivisionError` escape from the page-count
computation. -/
theorem c5_counterexample :
    (yts_search (fun _ => pageDiv0) "q").err =
      some PyErr.zeroDivisionError ∧
    PyErr.zeroDivisionError ≠ PyErr.typeError :=
  ⟨rfl, by decide⟩

/-- One loop iteration whose page decodes with movies present. -/
theorem runPages_cons_ok (fetch : String → JVal) (base : String)
    (cod rs : Option String) (p : Nat) (ps : List Nat) (acc : SearchOut)
    (r : yts_response) (ms : List yts_movie)
    (hr : convert_responseJ (fetch (base ++ "&page=" ++ toString (p + 1))) =
      .ok r)
    (hm : r.data.movies = some ms) :
    runPages fetch base cod rs (p :: ps) acc =
      runPages fetch base cod rs ps (SearchOut.mk (acc.fetches + 1)
        acc.prints (acc.emits ++ ms.flatMap (movieEmits cod rs)) acc.err) := by
  obtain ⟨st, sm, d⟩ := r
  obtain ⟨mc, lim, pn, mv⟩ := d
  change mv = some ms at hm
  subst hm
  rw [runPages, hr]

/-- One loop iteration whose page decodes with movies absent: `TypeError`
is raised and the loop aborts. -/
theorem runPages_cons_noneM (fetch : String → JVal) (base : String)
    (cod rs : Option String) (p : Nat) (ps : List Nat) (acc : SearchOut)
    (r : yts_response)
    (hr : convert_responseJ (fetch (base ++ "&page=" ++ toString (p + 1))) =
      .ok r)
    (hm : r.data.movies = none) :
    runPages fetch base cod rs (p :: ps) acc =
      SearchOut.mk (acc.fetches + 1) acc.prints acc.emits
        (some PyErr.typeError) := by
  obtain ⟨st, sm, d⟩ := r
  obtain ⟨mc, lim, pn, mv⟩ := d
  change mv = none at hm
  subst hm
  rw [runPages, hr]

/-- C4: during the page loop, pages are processed with no status check
and no check that `movies` is present; as soon as a fetched page decodes
with `movies` absent (`None`), the iteration raises `TypeError` (the page
is not skipped and the loop stops — pages after it are not fetched). -/
theorem c4_movies_none_raises (fetch : String → JVal) (base : String)
    (cod rs : Option String) (ps1 ps2 : List Nat) (p : Nat)
    (acc : SearchOut)
    (hfine : ∀ q ∈ ps1, ∃ r ms,
      convert_responseJ (fetch (base ++ "&page=" ++ toString (q + 1))) =
        .ok r ∧ r.data.movies = some ms)
    (hp : ∃ r,
      convert_responseJ (fetch (base ++ "&page=" ++ toString (p + 1))) =
        .ok r ∧ r.data.movies = none) :
    (runPages fetch base cod rs (ps1 ++ p :: ps2) acc).err =
      some PyErr.typeError ∧
    (runPages fetch base cod rs (ps1 ++ p :: ps2) acc).fetches =
      acc.fetches + ps1.length + 1 := by
  induction ps1 generalizing acc with
  | nil =>
    obtain ⟨r, hr, hm⟩ := hp
    rw [List.nil_append,
      runPages_cons_noneM fetch base cod rs p ps2 acc r hr hm]
    exact ⟨rfl, by simp⟩
  | cons q ps1' ih =>
    obtain ⟨r, ms, hr, hm⟩ := hfine q (List.mem_cons_self q ps1')
    have hfine' : ∀ x ∈ ps1', ∃ r ms,
        convert_responseJ (fetch (base ++ "&page=" ++ toString (x + 1))) =
          .ok r ∧ r.data.movies = some ms :=
      fun x hx => hfine x (List.mem_cons_of_mem q hx)
    rw [List.cons_append,
      runPages_cons_ok fetch base cod rs q (ps1' ++ p :: ps2) acc r ms hr hm]
    obtain ⟨he, hf⟩ := ih (SearchOut.mk (acc.fetches + 1) acc.prints
      (acc.emits ++ ms.flatMap (movieEmits cod rs)) acc.err) hfine'
    refine ⟨he, ?_⟩
    rw [hf]
    simp only [List.length_cons]
    omega

/-- Witness for C4: a two-page loop whose second page lacks `movies`
raises `TypeError` after three total fetches (the starting accumulator
already counts the initial fetch). -/
theorem c4_movies_none_witness :
    (runPages fetchPage2NoMovies "b" none none [0, 1]
      (SearchOut.mk 1 [] [] none)).err = some PyErr.typeError ∧
    (runPages fetchPage2NoMovies "b" none none [0, 1]
      (SearchOut.mk 1 [] [] none)).fetches = 3 :=
  c4_movies_none_raises fetchPage2NoMovies "b" none none [0] [] 1
    (SearchOut.mk 1 [] [] none)
    (fun q hq => by
      have hq0 : q = 0 := by simpa using hq
      subst hq0
      exact ⟨pageOk20R, [], rfl, rfl⟩)
    ⟨pageNoMoviesR, rfl, rfl⟩

/-- C2 (amended): for a successful search whose first response reports
`movie_count=20, limit=20`, the computed page count is `20//20 + 1 = 2`,
but the whole invocation performs 3 fetches: the initial fetch plus one
per computed page (the loop re-fetches page 1 with `&page=1`). -/
theorem c2_pagecount_amended (fetch : String → JVal) (what : String)
    (r r1 r2 : yts_response) (ms1 ms2 : List yts_movie)
    (h1 : convert_responseJ (fetch (searchBaseUrl what)) = .ok r)
    (hst : r.status = .jstr "ok")
    (hc : r.data.movie_count = .jnum 20) (hl : r.data.limit = .jnum 20)
    (hp1 : convert_responseJ
      (fetch (searchBaseUrl what ++ "&page=" ++ "1")) = .ok r1)
    (hm1 : r1.data.movies = some ms1)
    (hp2 : convert_responseJ
      (fetch (searchBaseUrl what ++ "&page=" ++ "2")) = .ok r2)
    (hm2 : r2.data.movies = some ms2) :
    (yts_search fetch what).fetches = 3 ∧
    (yts_search fetch what).err = none := by
  obtain ⟨st, sm, d⟩ := r
  obtain ⟨mc, lim, pn, mv⟩ := d
  change st = .jstr "ok" at hst
  change mc = .jnum 20 at hc
  change lim = .jnum 20 at hl
  subst hst
  subst hc
  subst hl
  unfold searchBaseUrl at h1 hp1 hp2
  simp only [yts_search]
  rw [h1]
  show (runPages fetch (api_url ++ urlencodeParams (parseQuery what).params)
      (parseQuery what).search_codec (parseQuery what).search_resolution
      (List.range (Int.toNat ((20 : Int).fdiv 20 + 1)))
      (SearchOut.mk 1 [] [] none)).fetches = 3 ∧
    (runPages fetch (api_url ++ urlencodeParams (parseQuery what).params)
      (parseQuery what).search_codec (parseQuery what).search_resolution
      (List.range (Int.toNat ((20 : Int).fdiv 20 + 1)))
      (SearchOut.mk 1 [] [] none)).err = none
  have hrange : List.range (Int.toNat ((20 : Int).fdiv 20 + 1)) = [0, 1] :=
    rfl
  rw [hrange]
  have hp1' : convert_responseJ
      (fetch ((api_url ++ urlencodeParams (parseQuery what).params) ++
        "&page=" ++ toString (0 + 1))) = .ok r1 := hp1
  have hp2' : convert_responseJ
      (fetch ((api_url ++ urlencodeParams (parseQuery what).params) ++
        "&page=" ++ toString (1 + 1))) = .ok r2 := hp2
  rw [runPages_cons_ok _ _ _ _ 0 [1] _ r1 ms1 hp1' hm1]
  rw [runPages_cons_ok _ _ _ _ 1 [] _ r2 ms2 hp2' hm2]
  rw [runPages]
  exact ⟨rfl, rfl⟩

/-- Witness for C2 (amended): a constant oracle reporting
`movie_count=20, limit=20, movies=[]` yields 3 fetches and no error. -/
theorem c2_pagecount_witness :
    (yts_search fetchConst20 "foo").fetches = 3 ∧
    (yts_search fetchConst20 "foo").err = none :=
  c2_pagecount_amended fetchConst20 "foo" pageOk20R pageOk20R pageOk20R
    [] [] rfl rfl rfl rfl rfl rfl rfl rfl

/-- C2 counterexample: under the same oracle the successful search makes
3 fetches over the whole invocation, not 2 as the claim states. -/
theorem c2_counterexample :
    (yts_search fetchConst20 "foo").fetches = 3 ∧
    (yts_search fetchConst20 "foo").err = none ∧
    (yts_search fetchConst20 "foo").fetches ≠ 2 :=
  ⟨rfl, rfl, by decide⟩

/-- C3 (amended): unrecognized top-level fields are filtered out and
ignored, but nothing filters the nested objects: an unrecognized field
inside `data`, a movie, or a torrent makes the corresponding
`dataclass(**kwargs)` construction raise `TypeError`, failing the
decode. -/
theorem c3_nested_fields_amended :
    (∀ (k : String) (v : JVal) (o : List (String × JVal)),
      responseFieldNames.contains k = false →
      convert_response ((k, v) :: o) = convert_response o) ∧
    (∀ (k : String) (v : JVal) (o : List (String × JVal)),
      dataFieldNames.contains k = false →
      decode_data ((k, v) :: o) = .error .typeError) ∧
    (∀ (k : String) (v : JVal) (o : List (String × JVal)),
      movieFieldNames.contains k = false →
      decode_movie ((k, v) :: o) = .error .typeError) ∧
    (∀ (k : String) (v : JVal) (o : List (String × JVal)),
      torrentFieldNames.contains k = false →
      decode_torrent ((k, v) :: o) = .error .typeError) := by
  refine ⟨?_, ?_, ?_, ?_⟩
  · intro k v o hk
    unfold convert_response
    simp only [List.filter_cons, hk]
    simp
  · intro k v o hk
    have hguard : (((k, v) :: o).all fun kv =>
        dataFieldNames.contains kv.1) = false := by
      simp only [List.all_cons, hk, Bool.false_and]
    have hcond : ((((k, v) :: o).all fun kv => dataFieldNames.contains kv.1)
        && (requiredDataFields.all fun n =>
          (olookup ((k, v) :: o) n).isSome)) = false := by
      rw [hguard]; rfl
    unfold decode_data
    rw [hcond]
    simp
  · intro k v o hk
    have hguard : (((k, v) :: o).all fun kv =>
        movieFieldNames.contains kv.1) = false := by
      simp only [List.all_cons, hk, Bool.false_and]
    have hcond : ((((k, v) :: o).all fun kv => movieFieldNames.contains kv.1)
        && (movieFieldNames.all fun n =>
          (olookup ((k, v) :: o) n).isSome)) = false := by
      rw [hguard]; rfl
    unfold decode_movie
    rw [hcond]
    simp
  · intro k v o hk
    have hguard : (((k, v) :: o).all fun kv =>
        torrentFieldNames.contains kv.1) = false := by
      simp only [List.all_cons, hk, Bool.false_and]
    have hcond : ((((k, v) :: o).all fun kv =>
        torrentFieldNames.contains kv.1)
        && (torrentFieldNames.all fun n =>
          (olookup ((k, v) :: o) n).isSome)) = false := by
      rw [hguard]; rfl
    unfold decode_torrent
    rw [hcond]
    simp

/-- Witness for C3 (amended) at concrete extra fields. -/
theorem c3_nested_fields_witness :
    convert_response (("x_extra", JVal.jnum 1) :: wellShapedTop) =
      convert_response wellShapedTop ∧
    decode_data (("surprise", JVal.jnum 1) ::
      [("movie_count", JVal.jnum 0), ("limit", JVal.jnum 20),
       ("page_number", JVal.jnum 1)]) = .error .typeError ∧
    decode_movie [("surprise", JVal.jnum 1)] = .error .typeError ∧
    decode_torrent [("surprise", JVal.jnum 1)] = .error .typeError :=
  ⟨c3_nested_fields_amended.1 "x_extra" (JVal.jnum 1) wellShapedTop rfl,
   c3_nested_fields_amended.2.1 "surprise" (JVal.jnum 1) _ rfl,
   c3_nested_fields_amended.2.2.1 "surprise" (JVal.jnum 1) [] rfl,
   c3_nested_fields_amended.2.2.2 "surprise" (JVal.jnum 1) [] rfl⟩

/-- C3 counterexample: a payload whose recognized fields are well shaped
decodes successfully without the extra nested field, but the presence of
one extra field inside `data` makes decoding fail with `TypeError` —
contradicting the claim that extra nested fields never cause an error. -/
theorem c3_counterexample :
    convert_response wellShapedTop =
      .ok (yts_response.mk (.jstr "ok") (.jstr "")
        (yts_data.mk (.jnum 0) (.jnum 20) (.jnum 1) none)) ∧
    convert_responseJ payloadExtraNested = .error PyErr.typeError :=
  ⟨rfl, rfl⟩

end YTSPlugin
